import Mathlib

/-!
Verification of the TruthDare interaction dispatch pipeline and the
paranoia delivery flow, shallowly embedded from the TypeScript sources
(`src/classes/Server.ts`, `src/classes/Client.ts`, `src/classes/Functions.ts`,
`src/commands/answer.ts`).

Conventions of the embedding:
* BigInt / JS number counters are embedded as `Nat`; the floating-point
  running average is embedded as an exact rational (`ℚ`).
* External collaborators (the question store, the messaging platform,
  Sentry, prom-client) are represented by explicit effect events in an
  ordered trace, and fallible sends by `Option` oracles supplied as inputs.
* Per-recipient paranoia state is the recipient's FIFO list of entries,
  threaded explicitly through the `answer` command handler.
-/

namespace TruthDare

/-! ## Rate limiter (`Server.ts`, `APIRateLimit`)

`express-rate-limit` configured with `windowMs = 5 * 1000`, `max = 5`,
`skipFailedRequests: true`, and a handler replying HTTP 429
("Too many requests, please try again later.").  The library keeps, per
client key, a hit count and a window reset time; each incoming request
increments the count and is rejected when the count exceeds `max`; because
`skipFailedRequests` is set, the hit is taken back when the response
finishes with a failed status (>= 400) — which includes the limiter's own
429 rejection response. -/

def windowMs : Nat := 5 * 1000

def maxRequests : Nat := 5

def rateLimitedMessage : String := "Too many requests, please try again later."

structure RateWindow where
  count : Nat
  resetTime : Nat
  deriving Repr, DecidableEq

/-- Admission phase at time `t` (milliseconds): start a fresh window if none
exists or the current one has elapsed, record the hit, and admit iff the hit
count stays within `maxRequests`. -/
def rlAdmit (st : Option RateWindow) (t : Nat) : Bool × RateWindow :=
  let w : RateWindow := match st with
    | none => { count := 0, resetTime := t + windowMs }
    | some w => if w.resetTime ≤ t then { count := 0, resetTime := t + windowMs } else w
  let hits := w.count + 1
  (decide (hits ≤ maxRequests), { count := hits, resetTime := w.resetTime })

/-- Response-finish phase: with `skipFailedRequests: true`, a response whose
final status is failed (>= 400) has its hit removed. -/
def rlFinish (w : RateWindow) (failedStatus : Bool) : RateWindow :=
  if failedStatus then { w with count := w.count - 1 } else w

/-- One request processed to completion at time `t`.  `handlerFailed` is
whether the handler's own response, when the request is admitted, ends with
a failed status (>= 400); a rejected request's 429 response always counts
as failed. -/
def rlRequest (st : Option RateWindow) (t : Nat) (handlerFailed : Bool) :
    Bool × RateWindow :=
  let (admitted, w) := rlAdmit st t
  (admitted, rlFinish w (if admitted then handlerFailed else true))

/-- Servicing a list of successively arriving requests whose admitted
responses all succeed; returns the final stored window and the admission
verdicts in order. -/
def rlRun (st : Option RateWindow) (ts : List Nat) : Option RateWindow × List Bool :=
  match ts with
  | [] => (st, [])
  | t :: rest =>
    let (a, w) := rlRequest st t false
    let (st', rest') := rlRun (some w) rest
    (st', a :: rest')

/-! ## Permission gate (`Functions.ts`, `checkPerms` / `hasPermission`)

`PermissionFlagsBits` is the constant table from the `discord-api-types`
v9 dependency: each named capability is the BigInt flag `1n << kn`.  We
record each name with its shift amount `k` and resolve it to `1 <<< k`. -/

def permissionFlagsBits : List (String × Nat) :=
  [("CreateInstantInvite", 0), ("KickMembers", 1), ("BanMembers", 2),
   ("Administrator", 3), ("ManageChannels", 4), ("ManageGuild", 5),
   ("AddReactions", 6), ("ViewAuditLog", 7), ("PrioritySpeaker", 8),
   ("Stream", 9), ("ViewChannel", 10), ("SendMessages", 11),
   ("SendTTSMessages", 12), ("ManageMessages", 13), ("EmbedLinks", 14),
   ("AttachFiles", 15), ("ReadMessageHistory", 16), ("MentionEveryone", 17),
   ("UseExternalEmojis", 18), ("ViewGuildInsights", 19), ("Connect", 20),
   ("Speak", 21), ("MuteMembers", 22), ("DeafenMembers", 23),
   ("MoveMembers", 24), ("UseVAD", 25), ("ChangeNickname", 26),
   ("ManageNicknames", 27), ("ManageRoles", 28), ("ManageWebhooks", 29),
   ("ManageEmojisAndStickers", 30), ("UseApplicationCommands", 31),
   ("RequestToSpeak", 32), ("ManageEvents", 33), ("ManageThreads", 34),
   ("CreatePublicThreads", 35), ("CreatePrivateThreads", 36),
   ("UseExternalStickers", 37), ("SendMessagesInThreads", 38),
   ("UseEmbeddedActivities", 39), ("ModerateMembers", 40)]

/-- Value of the flag with shift amount `k`: the BigInt `1n << kn`. -/
def flagValue (k : Nat) : Nat := 1 <<< k

/-- A `Permission` in `command.perms` is either a key of
`PermissionFlagsBits` or a raw BigInt flag value. -/
inductive Permission where
  | key (name : String)
  | flag (value : Nat)
  deriving Repr, DecidableEq

/-- Resolution step of `checkPerms`:
`typeof perm === 'bigint' ? perm : PermissionFlagsBits[perm]`. -/
def resolvePermission : Permission → Nat
  | .key name =>
    ((permissionFlagsBits.find? (fun p => p.1 == name)).map (fun p => flagValue p.2)).getD 0
  | .flag v => v

/-- Required-capability bitmask: `.reduce((a, c) => a | c, 0n)`. -/
def requiredPerms (perms : List Permission) : Nat :=
  (perms.map resolvePermission).foldl (fun a c => a ||| c) 0

/-- Missing bitmask: the BigInt expression `required & ~granted`, which on
nonnegative arbitrary-precision integers is the bitwise and-not. -/
def missingPerms (required granted : Nat) : Nat := Nat.ldiff required granted

/-- Names of the missing bits:
`Object.keys(PermissionFlagsBits).filter(key => PermissionFlagsBits[key] & missing)`. -/
def missingPermNames (missing : Nat) : List String :=
  (permissionFlagsBits.filter (fun p => flagValue p.2 &&& missing != 0)).map (fun p => p.1)

/-- `checkPerms(command, ctx)` from `Functions.ts`: returns `true`
immediately when the interaction has no member context; otherwise computes
`missing = required & ~granted` and, when it is nonzero, replies with the
missing capability names and returns `false`.  The returned `Option`
carries the reply's list of missing names (`none` = no reply sent). -/
def checkPerms (perms : List Permission) (memberPermissions : Option Nat) :
    Bool × Option (List String) :=
  match memberPermissions with
  | none => (true, none)
  | some granted =>
    let required := requiredPerms perms
    let missing := missingPerms required granted
    if missing ≠ 0 then (false, some (missingPermNames missing)) else (true, none)

/-- `hasPermission(permission, permissions?)` from `Functions.ts`. -/
def hasPermission (permission : Permission) (permissions : Option Nat) : Bool :=
  match permissions with
  | none => true
  | some granted => missingPerms (resolvePermission permission) granted == 0

/-! ## Usage statistics (`Client.ts`)

`client.stats` holds the process-wide counters; the per-command maps are
embedded as total functions over command names (the source initializes a
key to 0 for every registered command at startup, and only registered
commands are ever incremented). -/

structure Stats where
  minuteCommandCount : Nat
  perMinuteCommandAverage : ℚ
  minutesPassed : Nat
  commands : String → Nat
  minuteCommands : String → Nat

/-- Startup state of `client.stats` after `Client.start` zero-initializes
every registered command name. -/
def initStats : Stats :=
  { minuteCommandCount := 0
    perMinuteCommandAverage := 0
    minutesPassed := 0
    commands := fun _ => 0
    minuteCommands := fun _ => 0 }

/-- The three statistics increments performed by `Server.handleCommand`
once a command is confirmed dispatchable. -/
def incrementStats (cmdName : String) (st : Stats) : Stats :=
  { st with
    minuteCommandCount := st.minuteCommandCount + 1
    commands := fun n => if n = cmdName then st.commands n + 1 else st.commands n
    minuteCommands := fun n => if n = cmdName then st.minuteCommands n + 1 else st.minuteCommands n }

/-- The one-minute `setInterval` body in `Client.start`: the running
average is recomputed as
`(average * minutesPassed + minuteCommandCount) / ++minutesPassed`
(JavaScript evaluates the numerator before the pre-increment, so the
denominator is the old `minutesPassed + 1`), then every per-minute counter
is reset to zero.  The lifetime `commands` map is untouched.  The optional
Statcord post between the average update and the resets is external I/O
with no effect on the counters. -/
def flushStats (st : Stats) : Stats :=
  { st with
    perMinuteCommandAverage :=
      (st.perMinuteCommandAverage * (st.minutesPassed : ℚ) + (st.minuteCommandCount : ℚ)) /
        ((st.minutesPassed : ℚ) + 1)
    minutesPassed := st.minutesPassed + 1
    minuteCommands := fun _ => 0
    minuteCommandCount := 0 }

/-! ## Command dispatch (`Server.ts`, `handleRequest` / `handleCommand`) -/

def PASSTHROUGH_COMMANDS : List String := ["settings"]

def mutedMessage : String :=
  ":x: I am muted in this channel. Use `/settings unmute` to unmute me."

def genericFailureMessage : String :=
  ":x: Something went wrong while running that command."

/-- Observable effects of one command dispatch, in program order. -/
inductive ServerEffect where
  | reply (content : String)
  | permissionReply (missingNames : List String)
  | consoleError (msg : String)
  | statsIncrement (cmd : String)
  | handlerRun (cmd : String)
  | sentryReport (user cmd args channelId : String)
  | trackCommandUse (cmd : String) (success : Bool)
  deriving Repr, DecidableEq

/-- Static command descriptor as far as dispatch is concerned. -/
structure Cmd where
  name : String
  perms : List Permission
  deriving Repr, DecidableEq

/-- `Server.handleCommand`: look the command up by exact name, run the
permission gate, increment the statistics counters, then run the handler
inside `try/catch`.  `handlerErr` is the outcome of `command.run(ctx)`:
`none` when it resolves, `some err` when it raises.  The function always
returns (nothing is propagated past this boundary); the caught branch logs
the error, reports it to Sentry with the contextual metadata, and replies
with the generic failure message, after which the success/failure tally
`trackCommandUse` records the outcome. -/
def handleCommand (registry : List Cmd) (cmdName : String)
    (memberPermissions : Option Nat) (userTag argsJson channelId : String)
    (handlerErr : Option String) (st : Stats) : List ServerEffect × Stats :=
  match registry.find? (fun c => c.name == cmdName) with
  | none =>
    ([.consoleError ("Command " ++ cmdName ++ " was run with no corresponding command file.")], st)
  | some command =>
    match checkPerms command.perms memberPermissions with
    | (false, names) => ([.permissionReply (names.getD [])], st)
    | (true, _) =>
      let st1 := incrementStats command.name st
      match handlerErr with
      | some err =>
        ([.statsIncrement command.name, .handlerRun command.name,
          .consoleError err,
          .sentryReport userTag command.name argsJson channelId,
          .reply genericFailureMessage,
          .trackCommandUse command.name false], st1)
      | none =>
        ([.statsIncrement command.name, .handlerRun command.name,
          .trackCommandUse command.name true], st1)

/-- `Server.handleRequest`, chat-input command branch: the mute gate short-
circuits with the fixed mute message unless the command name is in the
`PASSTHROUGH_COMMANDS` allow-list; otherwise it defers to `handleCommand`. -/
def handleRequest (muted : Bool) (registry : List Cmd) (cmdName : String)
    (memberPermissions : Option Nat) (userTag argsJson channelId : String)
    (handlerErr : Option String) (st : Stats) : List ServerEffect × Stats :=
  if muted && !(PASSTHROUGH_COMMANDS.contains cmdName) then
    ([.reply mutedMessage], st)
  else
    handleCommand registry cmdName memberPermissions userTag argsJson channelId handlerErr st

/-! ## Express router wiring (`Server.ts`, constructor)

The constructor mounts `APIRateLimit` with `router.use` on the `/api/` and
`/v1/` path groups only; the `POST /interactions` webhook route is
registered with `verifyKeyMiddleware` followed by `handleRequest`, with no
rate limiter in its chain. -/

inductive Middleware where
  | rateLimit
  | verifyKey
  | corsAllowAll
  | handleRequestFn
  | handleAPIFn
  | metricsAuth
  | redirectDocs
  deriving Repr, DecidableEq

inductive Endpoint where
  | interactions
  | api (questionType : String)
  | v1 (questionType : String)
  | metrics
  | root
  deriving Repr, DecidableEq

/-- Ordered middleware chain each endpoint's requests pass through, as
registered in the `Server` constructor. -/
def middlewareChain : Endpoint → List Middleware
  | .interactions => [.verifyKey, .handleRequestFn]
  | .api _ => [.rateLimit, .handleAPIFn]
  | .v1 _ => [.rateLimit, .corsAllowAll, .handleAPIFn]
  | .metrics => [.metricsAuth]
  | .root => [.redirectDocs]

/-! ## Public question API (`Server.ts`, `handleAPI`)

The enumerated sets come from the generated `.prisma/client` enums, whose
schema file is not part of the sources here. -/

/-- Modelled from the spec: the enumerated set of valid question types of
the external question store (`Object.values(QuestionType)` of the
`.prisma/client` enum, whose schema is not under `src/`); the repository's
commands use the members `TRUTH`, `DARE` and `PARANOIA` of this set. -/
def questionTypeValues : List String := ["DARE", "NHIE", "TRUTH", "WYR", "PARANOIA"]

/-- Modelled from the spec: the enumerated set of valid content ratings
(`Object.values(Rating)` of the `.prisma/client` enum); the rating choices
`PG`, `PG13`, `R` appear verbatim in the command option schemas, and `R`
is the highest-maturity rating that `handleAPI` disables by default. -/
def ratingValues : List String := ["PG", "PG13", "R"]

/-- ASCII apostrophe used to quote enum values in the 400 messages. -/
def quoteMark : String := String.singleton (Char.ofNat 39)

/-- Embedding of JavaScript `toUpperCase()` (ASCII case mapping, which is
all the enum comparisons exercise). -/
def jsToUpperCase (s : String) : String := ⟨s.data.map Char.toUpper⟩

/-- Rendering of a valid-values list in the 400 messages:
``.map(q => `'${q}'`).join(' ')``. -/
def quotedJoin (values : List String) : String :=
  String.intercalate " " (values.map (fun q => quoteMark ++ q ++ quoteMark))

def questionTypeErrorMessage : String :=
  "The question type must be one of the following: " ++ quotedJoin questionTypeValues

def ratingErrorMessage : String :=
  "The rating must be one of the following: " ++ quotedJoin ratingValues

/-- Response of `handleAPI`.  A successful lookup is represented by the
arguments passed to the external `getRandomQuestion(questionType,
disabledRatings)` query. -/
inductive APIResponse where
  | badRequest (message : String)
  | question (questionType : String) (disabledRatings : List String)
  | tooManyRequests (message : String)
  deriving Repr, DecidableEq

/-- Metrics side effects of the API path. -/
inductive APIEvent where
  | handlerRun
  | trackAPIRequest
  deriving Repr, DecidableEq

/-- `Server.handleAPI`: upper-case the path parameter and validate it
against the question-type enum; with no `rating` query parameter fetch
with only `'R'` disabled; otherwise validate every supplied rating
(returning the 400 message at the first invalid one — represented by
`any`, which yields the same response) and disable exactly the ratings not
requested.  `ratingParam` is `none` when `req.query.rating` is absent (or
otherwise falsy), and the `Array.isArray` normalization to a list is
pre-applied. -/
def handleAPI (questionTypeParam : String) (ratingParam : Option (List String)) :
    List APIEvent × APIResponse :=
  let questionType := jsToUpperCase questionTypeParam
  if !(questionTypeValues.contains questionType) then
    ([.handlerRun], .badRequest questionTypeErrorMessage)
  else
    match ratingParam with
    | none => ([.handlerRun], .question questionType ["R"])
    | some rs =>
      if rs.any (fun r => !(ratingValues.contains (jsToUpperCase r))) then
        ([.handlerRun], .badRequest ratingErrorMessage)
      else
        let ratingArray := rs.map (fun r => jsToUpperCase r)
        let disabledRatings := ratingValues.filter (fun a => !(ratingArray.contains a))
        ([.handlerRun, .trackAPIRequest], .question questionType disabledRatings)

/-- One request to the `/api/` or `/v1/` surface: the mounted
`APIRateLimit` middleware decides admission first; a rejected request is
answered immediately with the 429 payload and the handler never runs (so
no `handlerRun` and no `trackAPIRequest` event); an admitted request runs
`handleAPI`, and the hit is taken back afterwards when the response status
is failed (`skipFailedRequests`). -/
def apiSurface (st : Option RateWindow) (t : Nat)
    (questionTypeParam : String) (ratingParam : Option (List String)) :
    (List APIEvent × APIResponse) × RateWindow :=
  let (admitted, w) := rlAdmit st t
  if admitted then
    let (evs, resp) := handleAPI questionTypeParam ratingParam
    let failed := match resp with
      | .badRequest _ => true
      | .tooManyRequests _ => true
      | .question _ _ => false
    ((evs, resp), rlFinish w failed)
  else
    (([], .tooManyRequests rateLimitedMessage), rlFinish w true)

/-! ## The `answer` command (`commands/answer.ts`)

The per-recipient paranoia queue is the recipient's FIFO list of entries;
`database.getNextParanoia` returns its head, `removeParanoiaQuestion(id)`
deletes the entry with that id, and `setParanoiaMessageId` attaches the
freshly delivered DM message id.  Message sends and edits are external and
fallible; their outcomes are supplied as `Option`/`Bool` oracles. -/

structure ParanoiaEntry where
  id : Nat
  guildId : String
  channelId : String
  dmMessageId : String
  questionText : String
  questionRating : String
  questionId : String
  deriving Repr, DecidableEq

/-- Observable effects of one run of the `answer` command, in program
order. -/
inductive AnswerEffect where
  | reply (content : String)
  | getNextParanoia
  | sendMessage (channelId : String)
  | editMessage (channelId messageId : String)
  | warn
  | errorLog
  | removeQuestion (id : Nat)
  | setMessageId (id : Nat) (messageId : String)
  | fetchGuild (guildId : String)
  | throwGuildName
  deriving Repr, DecidableEq

def dmOnlyMessage : String := ":x: Paranoia questions can only be answered in DMs."

def noActiveQuestionMessage : String :=
  ":x: You don't have any active paranoia questions."

def sendFailedMessage (channelId : String) : String :=
  "Message failed to send, please make sure I can send messages in <#" ++ channelId ++
    "> and then try again."

def answerSentMessage : String := ":white_check_mark: Answer sent!"

/-- `answer.run` from `commands/answer.ts`.  Inputs: the interaction's
guild id (present iff invoked from a guild), the DM channel id
(`ctx.channelId`), the recipient's paranoia queue, and the oracles for the
two fallible sends (`relaySend`, `nextSend` — `some messageId` on
success), the origin-notification edit, and the guild fetch.  Returns the
ordered effect trace together with the recipient's queue (with the new
head's `dmMessageId` attached when the final step succeeds). -/
def answerRun (guildId : Option String) (dmChannelId : String)
    (queue : List ParanoiaEntry) (relaySend : Option String) (editOk : Bool)
    (guildName : Option String) (nextSend : Option String) :
    List AnswerEffect × List ParanoiaEntry :=
  match guildId with
  | some _ => ([.reply dmOnlyMessage], queue)
  | none =>
    match queue.head? with
    | none => ([.getNextParanoia, .reply noActiveQuestionMessage], queue)
    | some paranoiaData =>
      let pre := [AnswerEffect.getNextParanoia, .sendMessage paranoiaData.channelId]
      match relaySend with
      | none => (pre ++ [.reply (sendFailedMessage paranoiaData.channelId)], queue)
      | some _ =>
        let editEvs := [AnswerEffect.editMessage dmChannelId paranoiaData.dmMessageId] ++
          (if editOk then [] else [AnswerEffect.warn])
        let queue1 := queue.filter (fun x => x.id != paranoiaData.id)
        let removeEvs := [AnswerEffect.removeQuestion paranoiaData.id,
          .reply answerSentMessage, .getNextParanoia]
        match queue1.head? with
        | none => (pre ++ editEvs ++ removeEvs, queue1)
        | some nextQuestion =>
          let fetchEvs := [AnswerEffect.fetchGuild nextQuestion.guildId] ++
            (if guildName.isNone then [AnswerEffect.warn] else [])
          match guildName with
          | none =>
            -- `guild.name` on a null guild raises a TypeError before the
            -- next-question send; the exception is caught by the router.
            (pre ++ editEvs ++ removeEvs ++ fetchEvs ++ [.throwGuildName], queue1)
          | some _ =>
            match nextSend with
            | none =>
              (pre ++ editEvs ++ removeEvs ++ fetchEvs ++
                [.sendMessage dmChannelId, .errorLog], queue1)
            | some messageId =>
              (pre ++ editEvs ++ removeEvs ++ fetchEvs ++
                [.sendMessage dmChannelId,
                 .setMessageId nextQuestion.id messageId],
               queue1.map (fun x =>
                 if x.id = nextQuestion.id then { x with dmMessageId := messageId } else x))

/-- Concrete entry used to exercise the answer flow on explicit inputs. -/
def sampleEntry : ParanoiaEntry :=
  { id := 1, guildId := "guild1", channelId := "chan1", dmMessageId := "dm1",
    questionText := "q1", questionRating := "PG", questionId := "qid1" }

/-- Second concrete entry, queued behind `sampleEntry`. -/
def sampleEntry2 : ParanoiaEntry :=
  { id := 2, guildId := "guild1", channelId := "chan2", dmMessageId := "dm2",
    questionText := "q2", questionRating := "PG13", questionId := "qid2" }

/-! ## Theorems -/

/-- A single flag intersects a mask iff the mask has the flag's bit set. -/
theorem flagValue_and_ne_zero (k m : Nat) :
    (flagValue k &&& m ≠ 0) ↔ m.testBit k = true := by
  rw [flagValue, Nat.shiftLeft_eq, one_mul, Nat.two_pow_and]
  cases h : m.testBit k <;> simp [h, Nat.pow_eq_zero]

/-- `required & ~granted == 0` says exactly that every bit of `required`
is present in `granted`. -/
theorem ldiff_eq_zero_iff (r g : Nat) :
    Nat.ldiff r g = 0 ↔ ∀ k, r.testBit k = true → g.testBit k = true := by
  constructor
  · intro h k hk
    by_contra hg
    have ht := Nat.testBit_ldiff r g k
    rw [h, Nat.zero_testBit, hk, Bool.eq_false_iff.2 hg] at ht
    simp at ht
  · intro h
    apply Nat.eq_of_testBit_eq
    intro k
    rw [Nat.testBit_ldiff, Nat.zero_testBit]
    cases hk : r.testBit k
    · simp
    · simp [h k hk]

/-- Membership in `missingPermNames` is exactly "a named flag whose bit is
set in the missing mask". -/
theorem mem_missingPermNames (m : Nat) (name : String) :
    name ∈ missingPermNames m ↔
      ∃ p ∈ permissionFlagsBits, p.1 = name ∧ m.testBit p.2 = true := by
  unfold missingPermNames
  constructor
  · intro h
    rcases List.mem_map.1 h with ⟨p, hp, rfl⟩
    rcases List.mem_filter.1 hp with ⟨hmem, hbit⟩
    exact ⟨p, hmem, rfl, (flagValue_and_ne_zero p.2 m).1 (by simpa using hbit)⟩
  · rintro ⟨p, hmem, rfl, hbit⟩
    refine List.mem_map.2 ⟨p, List.mem_filter.2 ⟨hmem, ?_⟩, rfl⟩
    simpa using (flagValue_and_ne_zero p.2 m).2 hbit

/-- C3: for every required/granted capability bitmask, the permission check
allows the call iff `required & ~granted == 0` (equivalently, every bit
required is granted); with no member context it always allows; and the
missing-names list produced for the rejection reply contains exactly the
named flags whose bits are set in `required & ~granted`.  The same holds
for the single-capability variant `hasPermission`. -/
theorem checkPerms_spec (perms : List Permission) (granted : Nat) (perm : Permission) :
    (checkPerms perms none).1 = true ∧
    ((checkPerms perms (some granted)).1 = true ↔
      missingPerms (requiredPerms perms) granted = 0) ∧
    ((checkPerms perms (some granted)).1 = true ↔
      ∀ k, (requiredPerms perms).testBit k = true → granted.testBit k = true) ∧
    (∀ name, name ∈ missingPermNames (missingPerms (requiredPerms perms) granted) ↔
      ∃ p ∈ permissionFlagsBits, p.1 = name ∧
        (missingPerms (requiredPerms perms) granted).testBit p.2 = true) ∧
    hasPermission perm none = true ∧
    (hasPermission perm (some granted) = true ↔
      missingPerms (resolvePermission perm) granted = 0) := by
  refine ⟨rfl, ?_, ?_, fun name => mem_missingPermNames _ name, rfl, ?_⟩
  · by_cases h : missingPerms (requiredPerms perms) granted = 0 <;> simp [checkPerms, h]
  · rw [show ((checkPerms perms (some granted)).1 = true ↔
        missingPerms (requiredPerms perms) granted = 0) from ?_,
      missingPerms, ldiff_eq_zero_iff]
    by_cases h : missingPerms (requiredPerms perms) granted = 0 <;> simp [checkPerms, h]
  · simp [hasPermission]

/-- Bitwise and-not of a mask with itself is empty. -/
theorem ldiff_self_eq_zero (n : Nat) : Nat.ldiff n n = 0 := by
  apply Nat.eq_of_testBit_eq
  intro k
  rw [Nat.testBit_ldiff, Nat.zero_testBit]
  cases h : n.testBit k <;> simp [h]

/-- C3 witness: a member granted exactly `KickMembers` passes a command
requiring `KickMembers`, and a member granted only `CreateInstantInvite`
is missing it, with `KickMembers` named in the missing list. -/
theorem checkPerms_spec_witness :
    (checkPerms [Permission.key "KickMembers"] (some 2)).1 = true ∧
    "KickMembers" ∈
      missingPermNames (missingPerms (requiredPerms [Permission.key "KickMembers"]) 1) := by
  have hreq : requiredPerms [Permission.key "KickMembers"] = 2 := by decide
  refine ⟨((checkPerms_spec [Permission.key "KickMembers"] 2
      (Permission.key "KickMembers")).2.1).mpr ?_,
    ((checkPerms_spec [Permission.key "KickMembers"] 1
      (Permission.key "KickMembers")).2.2.2.1 "KickMembers").mpr ?_⟩
  · rw [missingPerms, hreq]
    exact ldiff_self_eq_zero 2
  · refine ⟨("KickMembers", 1), by decide, rfl, ?_⟩
    rw [missingPerms, hreq, Nat.testBit_ldiff]
    decide

/-- C4 counterexample: with the configured `skipFailedRequests: true`, the
sixth request inside a full 5-second window is rejected and the stored
counter stays at 5 — the rejected request does not retain its increment,
contradicting "a rejected request still increments the counter".  The
second conjunct shows the surrounding behavior the claim gets right: of
six immediate requests the first five are admitted and the sixth is not. -/
theorem rlRequest_rejection_counterexample :
    rlRequest (some { count := 5, resetTime := 5000 }) 0 false =
      (false, { count := 5, resetTime := 5000 }) ∧
    rlRun none [0, 0, 0, 0, 0, 0] =
      (some { count := 5, resetTime := 5000 }, [true, true, true, true, true, false]) := by
  decide

/-- C4 (amended): the limiter is a fixed window of `5 * 1000` ms with max
5; the first request in a fresh or elapsed window starts a new window
with count 1 and is admitted; a request within a window below the cap is
admitted and counted; of six requests in one window the first five are
admitted and the sixth rejected; and a rejected request leaves the stored
counter unchanged, because `skipFailedRequests: true` takes the hit back
when the failed (429) response finishes. -/
theorem rlRequest_fixed_window (w : RateWindow) (t : Nat) (handlerFailed : Bool) :
    windowMs = 5 * 1000 ∧ maxRequests = 5 ∧
    rlRequest none t false = (true, { count := 1, resetTime := t + windowMs }) ∧
    (w.resetTime ≤ t →
      rlRequest (some w) t false = (true, { count := 1, resetTime := t + windowMs })) ∧
    (t < w.resetTime → w.count < maxRequests →
      rlRequest (some w) t false = (true, { count := w.count + 1, resetTime := w.resetTime })) ∧
    (t < w.resetTime → maxRequests ≤ w.count →
      rlRequest (some w) t handlerFailed = (false, { count := w.count, resetTime := w.resetTime })) ∧
    (rlRun none [t, t, t, t, t, t]).2 = [true, true, true, true, true, false] := by
  refine ⟨rfl, rfl, ?_, ?_, ?_, ?_, ?_⟩
  · simp [rlRequest, rlAdmit, rlFinish, maxRequests]
  · intro h
    simp [rlRequest, rlAdmit, rlFinish, maxRequests, h]
  · intro ht hc
    have h1 : ¬ w.resetTime ≤ t := not_le.2 ht
    have h2 : w.count + 1 ≤ maxRequests := hc
    simp [rlRequest, rlAdmit, rlFinish, h1, h2]
  · intro ht hc
    have h1 : ¬ w.resetTime ≤ t := not_le.2 ht
    have h2 : ¬ (w.count + 1 ≤ maxRequests) := by omega
    simp [rlRequest, rlAdmit, rlFinish, h1, h2]
  · simp [rlRun, rlRequest, rlAdmit, rlFinish, windowMs, maxRequests]

/-- C4 witness: the in-window admitted and rejected branches of
`rlRequest_fixed_window` at concrete windows. -/
theorem rlRequest_fixed_window_witness :
    rlRequest (some { count := 3, resetTime := 5000 }) 0 false =
      (true, { count := 4, resetTime := 5000 }) ∧
    rlRequest (some { count := 5, resetTime := 5000 }) 0 true =
      (false, { count := 5, resetTime := 5000 }) ∧
    rlRequest (some { count := 2, resetTime := 7000 }) 7000 false =
      (true, { count := 1, resetTime := 7000 + windowMs }) :=
  ⟨(rlRequest_fixed_window { count := 3, resetTime := 5000 } 0 false).2.2.2.2.1
      (by decide) (by decide),
   (rlRequest_fixed_window { count := 5, resetTime := 5000 } 0 true).2.2.2.2.2.1
      (by decide) (by decide),
   (rlRequest_fixed_window { count := 2, resetTime := 7000 } 7000 false).2.2.2.1
      (by decide)⟩

/-- C2 counterexample: the `POST /interactions` webhook route is mounted
with only the signature-verification middleware and the request handler —
no rate-limiter admission is in its chain, so webhook interactions are not
rate limited at all. -/
theorem interactions_no_rate_limit_counterexample :
    middlewareChain Endpoint.interactions =
      [Middleware.verifyKey, Middleware.handleRequestFn] ∧
    Middleware.rateLimit ∉ middlewareChain Endpoint.interactions := by
  decide

/-- C2 (amended): rate-limiter admission is applied (per client key) as
the first middleware of the read-only API surfaces `/api/` and `/v1/`, and
a rejected request there is answered immediately with the 429 payload, with
no handler invocation and no API-stats tracking; the `/interactions`
webhook surface has no rate limiter in its chain. -/
theorem api_rate_limit_admission (st : Option RateWindow) (t : Nat)
    (qt : String) (rp : Option (List String)) :
    (middlewareChain (Endpoint.api qt)).head? = some Middleware.rateLimit ∧
    (middlewareChain (Endpoint.v1 qt)).head? = some Middleware.rateLimit ∧
    Middleware.rateLimit ∉ middlewareChain Endpoint.interactions ∧
    ((rlAdmit st t).1 = false →
      apiSurface st t qt rp =
        (([], .tooManyRequests rateLimitedMessage), rlFinish (rlAdmit st t).2 true)) := by
  refine ⟨rfl, rfl, by decide, ?_⟩
  intro h
  simp [apiSurface, h]

/-- C2 witness: a sixth immediate request on the `/api/` surface is
rejected with the 429 payload, running no handler and tracking nothing. -/
theorem api_rate_limit_admission_witness :
    apiSurface (some { count := 5, resetTime := 5000 }) 0 "truth" none =
      (([], .tooManyRequests rateLimitedMessage),
        rlFinish (rlAdmit (some { count := 5, resetTime := 5000 }) 0).2 true) :=
  (api_rate_limit_admission (some { count := 5, resetTime := 5000 }) 0 "truth" none).2.2.2
    (by decide)

/-- C1 counterexample: with one queued entry and a failing relay send, the
recipient does get the failure-notice reply, but the entry is NOT removed —
the queue is returned unchanged and no `removeQuestion` effect occurs,
contradicting "the answered entry is still removed from the recipient's
queue". -/
theorem answer_relay_failure_counterexample :
    (answerRun none "dmchan" [sampleEntry] none true none none).2 = [sampleEntry] ∧
    AnswerEffect.removeQuestion sampleEntry.id ∉
      (answerRun none "dmchan" [sampleEntry] none true none none).1 ∧
    AnswerEffect.reply (sendFailedMessage sampleEntry.channelId) ∈
      (answerRun none "dmchan" [sampleEntry] none true none none).1 := by
  decide

/-- C1 (amended): if relaying the answer to the entry's origin channel
fails, the recipient receives a failure notice (naming the origin channel
and asking to try again) and the flow stops there: the entry is not
removed — it stays at the head of the queue so the recipient can retry —
and no acknowledgement, origin edit, or next-question delivery happens. -/
theorem answer_relay_failure_keeps_entry (dm : String) (e : ParanoiaEntry)
    (rest : List ParanoiaEntry) (editOk : Bool) (gn ns : Option String) :
    answerRun none dm (e :: rest) none editOk gn ns =
      ([.getNextParanoia, .sendMessage e.channelId,
        .reply (sendFailedMessage e.channelId)], e :: rest) := by
  rfl

/-- C6: with no pending entry the recipient is told there is no active
question and nothing else happens (no removal, no sends, queue unchanged);
with a pending head entry and a successful relay, the answered entry's
removal strictly precedes the fetch of the next queued question in the
effect trace, every entry of the post-removal queue (in particular the
newly fetched head) has an id different from the just-removed one, and the
removed entry is absent from the final queue. -/
theorem answer_removal_precedes_next_fetch (dm m : String) (e : ParanoiaEntry)
    (rest : List ParanoiaEntry) (relay : Option String) (editOk : Bool)
    (gn ns : Option String) :
    (answerRun none dm [] relay editOk gn ns =
      ([.getNextParanoia, .reply noActiveQuestionMessage], [])) ∧
    (∃ suffix, (answerRun none dm (e :: rest) (some m) editOk gn ns).1 =
      [AnswerEffect.getNextParanoia, .sendMessage e.channelId,
        .editMessage dm e.dmMessageId] ++ (if editOk then [] else [.warn]) ++
      ([AnswerEffect.removeQuestion e.id, .reply answerSentMessage,
        .getNextParanoia] ++ suffix)) ∧
    (((e :: rest).filter (fun x => x.id != e.id)).all (fun x => x.id != e.id) = true) ∧
    ((answerRun none dm (e :: rest) (some m) editOk gn ns).2.all
      (fun x => x.id != e.id) = true) := by
  have hfilter : ∀ (l : List ParanoiaEntry),
      (l.filter (fun x => x.id != e.id)).all (fun x => x.id != e.id) = true :=
    fun l => List.all_eq_true.2 (fun x hx => (List.mem_filter.1 hx).2)
  refine ⟨rfl, ?_, hfilter (e :: rest), ?_⟩
  · rcases hfind : List.find? (fun x => x.id != e.id) rest with _ | nx
    · exact ⟨[], by simp [answerRun, hfind, List.append_assoc]⟩
    · rcases gn with _ | g
      · exact ⟨[AnswerEffect.fetchGuild nx.guildId, .warn, .throwGuildName],
          by simp [answerRun, hfind, List.append_assoc]⟩
      · rcases ns with _ | mid
        · exact ⟨[AnswerEffect.fetchGuild nx.guildId, .sendMessage dm, .errorLog],
            by simp [answerRun, hfind, List.append_assoc]⟩
        · exact ⟨[AnswerEffect.fetchGuild nx.guildId, .sendMessage dm,
            .setMessageId nx.id mid], by simp [answerRun, hfind, List.append_assoc]⟩
  · have hrest := hfilter rest
    rcases hfind : List.find? (fun x => x.id != e.id) rest with _ | nx
    · simp [answerRun, hfind, hrest]
    · rcases gn with _ | g
      · simp [answerRun, hfind, hrest]
      · rcases ns with _ | mid
        · simp [answerRun, hfind, hrest]
        · rw [show (answerRun none dm (e :: rest) (some m) editOk (some g) (some mid)).2 =
            (rest.filter (fun x => x.id != e.id)).map (fun x =>
              if x.id = nx.id then { x with dmMessageId := mid } else x) from by
              simp [answerRun, hfind]]
          rw [List.all_map]
          refine List.all_eq_true.2 (fun x hx => ?_)
          have hne := (List.mem_filter.1 hx).2
          by_cases hid : x.id = nx.id <;> simp only [Function.comp, hid, if_true, if_false,
            reduceIte] <;> simpa [hid] using hne


/-- C10: invoked from a guild context (a guild id present on the
interaction), the answer command replies that paranoia questions can only
be answered in DMs and returns at once: the trace holds that single reply —
no queue read, removal, send, or edit — and the queue is unchanged. -/
theorem answer_guild_context_rejected (g dm : String) (queue : List ParanoiaEntry)
    (relay : Option String) (editOk : Bool) (gn ns : Option String) :
    answerRun (some g) dm queue relay editOk gn ns = ([.reply dmOnlyMessage], queue) := by
  rfl

/-- C5: once the command is found and the permission check passes, the
three invocation counters are incremented (visible in the state, and in
the trace strictly before the handler-run event) whether or not the
handler raises; a raising handler is caught — the trace is exactly one
console log, one Sentry report carrying the caller/command/options/channel
metadata, one generic failure reply, and a failure entry in the separate
success/failure tally, which is the only statistic recording the failure. -/
theorem handleCommand_stats_and_failure (registry : List Cmd) (cmdName : String)
    (c : Cmd) (memberPermissions : Option Nat) (userTag argsJson channelId : String)
    (handlerErr : Option String) (st : Stats)
    (hfind : registry.find? (fun c2 => c2.name == cmdName) = some c)
    (hperm : (checkPerms c.perms memberPermissions).1 = true) :
    (handleCommand registry cmdName memberPermissions userTag argsJson channelId
        handlerErr st).2 = incrementStats c.name st ∧
    (handleCommand registry cmdName memberPermissions userTag argsJson channelId
        handlerErr st).2.minuteCommandCount = st.minuteCommandCount + 1 ∧
    (handleCommand registry cmdName memberPermissions userTag argsJson channelId
        handlerErr st).2.commands c.name = st.commands c.name + 1 ∧
    (handleCommand registry cmdName memberPermissions userTag argsJson channelId
        handlerErr st).2.minuteCommands c.name = st.minuteCommands c.name + 1 ∧
    (∀ err, handlerErr = some err →
      (handleCommand registry cmdName memberPermissions userTag argsJson channelId
          handlerErr st).1 =
        [.statsIncrement c.name, .handlerRun c.name, .consoleError err,
         .sentryReport userTag c.name argsJson channelId,
         .reply genericFailureMessage, .trackCommandUse c.name false]) ∧
    (handlerErr = none →
      (handleCommand registry cmdName memberPermissions userTag argsJson channelId
          handlerErr st).1 =
        [.statsIncrement c.name, .handlerRun c.name, .trackCommandUse c.name true]) ∧
    (∀ err, handlerErr = some err →
      ((handleCommand registry cmdName memberPermissions userTag argsJson channelId
          handlerErr st).1.count (.reply genericFailureMessage) = 1 ∧
       (handleCommand registry cmdName memberPermissions userTag argsJson channelId
          handlerErr st).1.count
            (.sentryReport userTag c.name argsJson channelId) = 1 ∧
       (handleCommand registry cmdName memberPermissions userTag argsJson channelId
          handlerErr st).1.count (.trackCommandUse c.name true) = 0)) := by
  rcases hcp : checkPerms c.perms memberPermissions with ⟨b, names⟩
  rw [hcp] at hperm
  have hb : b = true := hperm
  subst hb
  rcases handlerErr with _ | err
  · refine ⟨by simp [handleCommand, hfind, hcp],
      by simp [handleCommand, hfind, hcp, incrementStats],
      by simp [handleCommand, hfind, hcp, incrementStats],
      by simp [handleCommand, hfind, hcp, incrementStats], ?_, ?_, ?_⟩
    · rintro e ⟨⟩
    · intro _
      simp [handleCommand, hfind, hcp]
    · rintro e ⟨⟩
  · refine ⟨by simp [handleCommand, hfind, hcp],
      by simp [handleCommand, hfind, hcp, incrementStats],
      by simp [handleCommand, hfind, hcp, incrementStats],
      by simp [handleCommand, hfind, hcp, incrementStats], ?_, ?_, ?_⟩
    · rintro e he
      cases he
      simp [handleCommand, hfind, hcp]
    · rintro ⟨⟩
    · rintro e he
      cases he
      simp [handleCommand, hfind, hcp, List.count_cons, List.count_nil]

/-- C5 witness: a registered `truth` command run with no member context
(DM permission check passes trivially) whose handler raises. -/
theorem handleCommand_stats_and_failure_witness :
    (handleCommand [{ name := "truth", perms := [] }] "truth" none "user" "[]" "chan"
        (some "boom") initStats).2.commands "truth" = 1 ∧
    (handleCommand [{ name := "truth", perms := [] }] "truth" none "user" "[]" "chan"
        (some "boom") initStats).1 =
      [.statsIncrement "truth", .handlerRun "truth", .consoleError "boom",
       .sentryReport "user" "truth" "[]" "chan",
       .reply genericFailureMessage, .trackCommandUse "truth" false] :=
  ⟨(handleCommand_stats_and_failure [{ name := "truth", perms := [] }] "truth"
      { name := "truth", perms := [] } none "user" "[]" "chan" (some "boom") initStats
      (by decide) rfl).2.2.1,
   (handleCommand_stats_and_failure [{ name := "truth", perms := [] }] "truth"
      { name := "truth", perms := [] } none "user" "[]" "chan" (some "boom") initStats
      (by decide) rfl).2.2.2.2.1 "boom" rfl⟩

/-- C8: a command interaction in a muted channel whose name is not in the
enumerated allow-list (exactly `["settings"]`) is answered with the fixed
mute message and nothing else: the handler never runs and the statistics
state is returned untouched. -/
theorem muted_channel_short_circuit (registry : List Cmd) (cmdName : String)
    (memberPermissions : Option Nat) (userTag argsJson channelId : String)
    (handlerErr : Option String) (st : Stats)
    (h : cmdName ∉ PASSTHROUGH_COMMANDS) :
    PASSTHROUGH_COMMANDS = ["settings"] ∧
    handleRequest true registry cmdName memberPermissions userTag argsJson channelId
      handlerErr st = ([.reply mutedMessage], st) := by
  refine ⟨rfl, ?_⟩
  have hc : PASSTHROUGH_COMMANDS.contains cmdName = false := by
    simpa using h
  simp [handleRequest, hc]
  intro hmem
  exact absurd hmem h

/-- C8 witness: a muted channel receiving the `truth` command. -/
theorem muted_channel_short_circuit_witness :
    handleRequest true [{ name := "truth", perms := [] }] "truth" none "user" "[]" "chan"
      none initStats = ([.reply mutedMessage], initStats) :=
  (muted_channel_short_circuit [{ name := "truth", perms := [] }] "truth" none "user"
    "[]" "chan" none initStats (by decide)).2

/-- Iterating the dispatch-time increment `n` times adds `n` to the
total-this-minute counter and to command `X`'s lifetime and per-minute
counters, and leaves the average and the minutes-passed count alone. -/
theorem iterate_incrementStats (X : String) (st : Stats) (n : Nat) :
    ((incrementStats X)^[n] st).minuteCommandCount = st.minuteCommandCount + n ∧
    ((incrementStats X)^[n] st).commands X = st.commands X + n ∧
    ((incrementStats X)^[n] st).minuteCommands X = st.minuteCommands X + n ∧
    ((incrementStats X)^[n] st).perMinuteCommandAverage = st.perMinuteCommandAverage ∧
    ((incrementStats X)^[n] st).minutesPassed = st.minutesPassed := by
  induction n with
  | zero => simp
  | succ n ih =>
    rcases ih with ⟨h1, h2, h3, h4, h5⟩
    rw [Function.iterate_succ_apply']
    refine ⟨?_, ?_, ?_, ?_, ?_⟩ <;>
      simp [incrementStats, h1, h2, h3, h4, h5, Nat.add_assoc]

/-- C7: the one-minute flush sets the running average to
`(average * minutesPassed + minuteCommandCount) / (minutesPassed + 1)`,
zeroes the per-minute counters (total and per-command), increments
`minutesPassed`, and never touches the lifetime per-command counters — so
after `n` dispatch-confirmed invocations of command `X` from the startup
state, the flushed lifetime count of `X` is exactly `n`. -/
theorem stats_flush_spec (st : Stats) (X : String) (n : Nat) :
    (flushStats ((incrementStats X)^[n] st)).commands X = st.commands X + n ∧
    (flushStats ((incrementStats X)^[n] st)).minuteCommands X = 0 ∧
    (flushStats ((incrementStats X)^[n] st)).minuteCommandCount = 0 ∧
    (flushStats ((incrementStats X)^[n] st)).minutesPassed = st.minutesPassed + 1 ∧
    (flushStats ((incrementStats X)^[n] st)).perMinuteCommandAverage =
      (st.perMinuteCommandAverage * (st.minutesPassed : ℚ) +
        ((st.minuteCommandCount + n : Nat) : ℚ)) / ((st.minutesPassed : ℚ) + 1) ∧
    (∀ name, (flushStats st).commands name = st.commands name) ∧
    (flushStats ((incrementStats X)^[n] initStats)).commands X = n := by
  obtain ⟨h1, h2, h3, h4, h5⟩ := iterate_incrementStats X st n
  obtain ⟨g1, g2, g3, g4, g5⟩ := iterate_incrementStats X initStats n
  refine ⟨by simp [flushStats, h2], by simp [flushStats], by simp [flushStats],
    by simp [flushStats, h5], ?_, fun name => by simp [flushStats], ?_⟩
  · simp [flushStats, h1, h4, h5]
  · have hsame : (flushStats ((incrementStats X)^[n] initStats)).commands =
        ((incrementStats X)^[n] initStats).commands := rfl
    rw [hsame, g2]
    simp [initStats]

/-- C9: a question type whose upper-casing is outside the enumerated set
yields the 400 error listing (quoting, in order) every valid type; any
supplied rating outside the enumerated rating set yields the 400 error
listing every valid rating; and a valid type with no rating parameter
fetches a question with exactly the highest-maturity rating `R` disabled. -/
theorem api_validation (s r : String) (rp : Option (List String)) (rs : List String) :
    (jsToUpperCase s ∉ questionTypeValues →
      handleAPI s rp = ([.handlerRun], .badRequest questionTypeErrorMessage)) ∧
    questionTypeErrorMessage =
      "The question type must be one of the following: " ++
        quoteMark ++ "DARE" ++ quoteMark ++ " " ++ quoteMark ++ "NHIE" ++ quoteMark ++ " " ++
        quoteMark ++ "TRUTH" ++ quoteMark ++ " " ++ quoteMark ++ "WYR" ++ quoteMark ++ " " ++
        quoteMark ++ "PARANOIA" ++ quoteMark ∧
    (jsToUpperCase s ∈ questionTypeValues → r ∈ rs → jsToUpperCase r ∉ ratingValues →
      handleAPI s (some rs) = ([.handlerRun], .badRequest ratingErrorMessage)) ∧
    ratingErrorMessage =
      "The rating must be one of the following: " ++ quoteMark ++ "PG" ++ quoteMark ++ " " ++
        quoteMark ++ "PG13" ++ quoteMark ++ " " ++ quoteMark ++ "R" ++ quoteMark ∧
    (jsToUpperCase s ∈ questionTypeValues →
      handleAPI s none = ([.handlerRun], .question (jsToUpperCase s) ["R"])) := by
  refine ⟨?_, by decide, ?_, by decide, ?_⟩
  · intro h
    simp [handleAPI, h]
  · intro hs hr hrat
    have hex : ∃ x ∈ rs, jsToUpperCase x ∉ ratingValues := ⟨r, hr, hrat⟩
    simp [handleAPI, hs, hex]
  · intro hs
    simp [handleAPI, hs]

/-- C9 witness: type `FOO` is rejected with the type list, rating `XX` is
rejected with the rating list, and `truth` with no rating fetches with
only `R` disabled. -/
theorem api_validation_witness :
    handleAPI "FOO" none = ([.handlerRun], .badRequest questionTypeErrorMessage) ∧
    handleAPI "truth" (some ["XX"]) = ([.handlerRun], .badRequest ratingErrorMessage) ∧
    handleAPI "truth" none = ([.handlerRun], .question "TRUTH" ["R"]) :=
  ⟨(api_validation "FOO" "XX" none ["XX"]).1 (by decide),
   (api_validation "truth" "XX" (some ["XX"]) ["XX"]).2.2.1 (by decide) (by decide) (by decide),
   (api_validation "truth" "XX" none ["XX"]).2.2.2.2 (by decide)⟩

end TruthDare
